import Mathlib

/-!
A shallow embedding of the detection backend
(`Backend Workflow/Baseline Model/app1.py`) in Lean 4, together with
theorems settling the specification claims about it.

Modelling conventions:
* Python floats are modelled as `PyFloat`: an exact rational, NaN, or ±∞.
  Rounding artifacts of binary floating point are irrelevant to every claim
  here (all comparisons and stored values stay well inside exactly
  representable territory), so finite values are carried as rationals.
* Request bodies are modelled as already-parsed JSON-ish values (`PyVal`),
  and a handler takes the optional parsed body (Python's `request.json`,
  `None` when absent).
* The sequential (single-thread) semantics of each handler is embedded as a
  pure state-passing function over an explicit system state.
* The SQLite connection pool is modelled separately (`PoolState`), at the
  level of handle accounting, with an explicit `fails` flag standing for
  "the SQL statement raised".
-/

namespace App1

/-- A Python float value: an exact finite rational, NaN, or ±infinity. -/
inductive PyFloat where
  | finite (q : ℚ)
  | nan
  | inf
  | ninf
deriving DecidableEq, Repr

/-- Python `<=` on floats: any comparison with NaN is `False`;
`-inf <= x` for non-NaN `x`; `x <= inf` for non-NaN `x`. -/
def PyFloat.le : PyFloat → PyFloat → Bool
  | .nan, _ => false
  | _, .nan => false
  | .ninf, _ => true
  | _, .ninf => false
  | _, .inf => true
  | .inf, _ => false
  | .finite a, .finite b => decide (a ≤ b)

/-- Python `math.isfinite`. -/
def PyFloat.isFinite : PyFloat → Bool
  | .finite _ => true
  | _ => false

/-- A JSON-ish Python value as it arrives in a parsed request body. -/
inductive PyVal where
  | vNone
  | vBool (b : Bool)
  | vNum (x : PyFloat)
  | vStr (s : String)
deriving DecidableEq, Repr

/-- A parsed JSON object body: association list of string keys to values. -/
abbrev Dict := List (String × PyVal)

/-- Python `dict.get(key)`: the value if present, else `None`. -/
def dictGet (d : Dict) (k : String) : PyVal :=
  match d.lookup k with
  | some v => v
  | none => PyVal.vNone

/-- Whitespace stripped by Python's `float(str)`. -/
def isPySpace (c : Char) : Bool :=
  c = ' ' || c = '\t' || c = '\n' || c = '\r' || c = '\x0b' || c = '\x0c'

/-- Strip leading and trailing whitespace from a character list. -/
def pyStrip (l : List Char) : List Char :=
  ((l.dropWhile isPySpace).reverse.dropWhile isPySpace).reverse

/-- ASCII lowercasing at the code-point level. -/
def lowerCode (c : Char) : ℕ :=
  let n := c.toNat
  if 65 ≤ n && n ≤ 90 then n + 32 else n

/-- Split a character list on `'.'` (like `str.split('.')`). -/
def splitOnDot : List Char → List (List Char)
  | [] => [[]]
  | c :: rest =>
    let r := splitOnDot rest
    if c = '.' then [] :: r
    else
      match r with
      | h :: t => (c :: h) :: t
      | [] => [[c]]

/-- Parse a nonempty all-digit character list as a natural number. -/
def parseDigits (l : List Char) : Option ℕ :=
  if l.isEmpty then none
  else l.foldlM (fun acc c => if c.isDigit then some (acc * 10 + (c.toNat - 48)) else none) 0

/-- Parse an unsigned decimal numeral, Python style: `"7"`, `"1.5"`,
`"1."`, `".5"` succeed; `""`, `"."`, `"abc"` fail. (Exponent and
underscore forms, which no claim touches, are out of the modelled subset.) -/
def parseUnsignedFloat (l : List Char) : Option ℚ :=
  match splitOnDot l with
  | [i] => (parseDigits i).map (fun n => (n : ℚ))
  | [i, f] =>
    if i.isEmpty && f.isEmpty then none
    else
      let ip := if i.isEmpty then some 0 else parseDigits i
      let fp := if f.isEmpty then some 0 else parseDigits f
      match ip, fp with
      | some a, some b => some ((a : ℚ) + (b : ℚ) / (10 : ℚ) ^ f.length)
      | _, _ => none
  | _ => none

/-- Python `float(str)`: optional sign, then `nan`/`inf`/`infinity`
(case-insensitive, compared at the code-point level) or a decimal numeral;
anything else raises (`none`). -/
def pyFloatOfString (s : String) : Option PyFloat :=
  let t := pyStrip s.data
  let sgn : Bool × List Char :=
    match t with
    | '-' :: rest => (true, rest)
    | '+' :: rest => (false, rest)
    | _ => (false, t)
  let low := sgn.2.map lowerCode
  if low = [110, 97, 110] then some PyFloat.nan
  else if low = [105, 110, 102] || low = [105, 110, 102, 105, 110, 105, 116, 121] then
    some (if sgn.1 then PyFloat.ninf else PyFloat.inf)
  else
    (parseUnsignedFloat sgn.2).map (fun q => PyFloat.finite (if sgn.1 then -q else q))

/-- Python `float(x)` on a request-body value: numbers pass through
(NaN and ±∞ included), booleans coerce to 0/1, strings are parsed,
`None` raises `TypeError` (`none`). -/
def pyFloat : PyVal → Option PyFloat
  | .vNone => none
  | .vBool b => some (PyFloat.finite (if b then 1 else 0))
  | .vNum x => some x
  | .vStr s => pyFloatOfString s

/-- Python truthiness `bool(x)` for request-body values:
`None` is falsy, `0` and `NaN`-free zero are falsy (NaN and ±∞ are truthy),
the empty string is falsy. -/
def pyTruthy : PyVal → Bool
  | .vNone => false
  | .vBool b => b
  | .vNum (.finite q) => decide (q ≠ 0)
  | .vNum _ => true
  | .vStr s => decide (s ≠ "")

/-- The in-memory settings dict: `{"threshold": 2.0, "alerts_enabled": True}`. -/
structure Settings where
  threshold : PyFloat
  alerts_enabled : Bool
deriving DecidableEq, Repr

/-- The initial settings literal in `app1.py`. -/
def initial_settings : Settings :=
  { threshold := PyFloat.finite 2, alerts_enabled := true }

/-- `/set_threshold` handler: `data = request.json or {}`;
`t = float(data.get("threshold"))` inside `try`; on success the settings
threshold becomes `t` and the handler returns ok; any exception from the
conversion yields a 400 with no state change. -/
def set_threshold (body : Option Dict) (s : Settings) : Bool × Settings :=
  let data := body.getD []
  match pyFloat (dictGet data "threshold") with
  | some t => (true, { s with threshold := t })
  | none => (false, s)

/-- `/toggle_alert` handler: `enabled = bool(data.get("enabled"))`;
always succeeds and stores the truthiness coercion. -/
def toggle_alert (body : Option Dict) (s : Settings) : Bool × Settings :=
  let data := body.getD []
  let enabled := pyTruthy (dictGet data "enabled")
  (true, { s with alerts_enabled := enabled })

/-! ### Connection pool model

`DB_POOL` is a bounded FIFO queue of SQLite connections. Handles are
identified by naturals; `nextConn` numbers freshly created connections.
`closed` records connections that were closed because the pool was full. -/

/-- `DB_POOL_MAX = 5`. -/
def DB_POOL_MAX : ℕ := 5

/-- The pool's visible state: available handles (queue order), handles
closed so far, and the next fresh handle id. -/
structure PoolState where
  pool : List ℕ
  closed : List ℕ
  nextConn : ℕ
deriving DecidableEq, Repr

/-- `get_db_conn`: take the queue head if the pool is nonempty, else create
a fresh connection (`_create_conn`). -/
def get_db_conn (ps : PoolState) : ℕ × PoolState :=
  match ps.pool with
  | c :: rest => (c, { ps with pool := rest })
  | [] => (ps.nextConn, { ps with nextConn := ps.nextConn + 1 })

/-- `release_db_conn`: `put_nowait` back into the pool if under capacity,
else close the connection. -/
def release_db_conn (c : ℕ) (ps : PoolState) : PoolState :=
  if ps.pool.length < DB_POOL_MAX then { ps with pool := ps.pool ++ [c] }
  else { ps with closed := ps.closed ++ [c] }

/-- The handle `c` has been given back: it is in the pool or closed. -/
def released (c : ℕ) (ps : PoolState) : Prop :=
  c ∈ ps.pool ∨ c ∈ ps.closed

instance (c : ℕ) (ps : PoolState) : Decidable (released c ps) := by
  unfold released; infer_instance

/-- Pool-level embedding of `record_detection` (lines 140–144): acquire a
connection, run INSERT + commit (which may raise, `fails`), then release.
There is no `try`/`finally`: an exception propagates before the release
line runs, so the error branch carries the acquired-but-unreleased handle. -/
def record_detection_conn (fails : Bool) (ps : PoolState) :
    Except (ℕ × PoolState) (ℕ × PoolState) :=
  let acq := get_db_conn ps
  if fails then Except.error (acq.1, acq.2)
  else Except.ok (acq.1, release_db_conn acq.1 acq.2)

/-- Pool-level embedding of the compute path of `cached_total_detections`
(lines 94–98): acquire, SELECT COUNT (may raise), release. Same
straight-line shape as `record_detection_conn`; no `try`/`finally`. -/
def cached_total_detections_conn (fails : Bool) (ps : PoolState) :
    Except (ℕ × PoolState) (ℕ × PoolState) :=
  let acq := get_db_conn ps
  if fails then Except.error (acq.1, acq.2)
  else Except.ok (acq.1, release_db_conn acq.1 acq.2)

/-- Pool-level embedding of the compute path of `cached_history`
(lines 103–107): acquire, SELECT (may raise), release. Same straight-line
shape; no `try`/`finally`. -/
def cached_history_conn (fails : Bool) (ps : PoolState) :
    Except (ℕ × PoolState) (ℕ × PoolState) :=
  let acq := get_db_conn ps
  if fails then Except.error (acq.1, acq.2)
  else Except.ok (acq.1, release_db_conn acq.1 acq.2)

/-- Well-formedness of the pool: handle ids are duplicate-free across the
pool and closed lists, and all below the fresh counter. -/
def PoolWF (ps : PoolState) : Prop :=
  ps.pool.Nodup ∧ ps.closed.Nodup ∧
  (∀ c ∈ ps.pool, c ∉ ps.closed ∧ c < ps.nextConn) ∧
  (∀ c ∈ ps.closed, c < ps.nextConn)

/-! ### Event store, cache and handlers (sequential functional model)

The `detections` table is a list of rows in insertion order; SQLite's
`AUTOINCREMENT` id counter is `nextId` (first assigned id is 1).
`cached_total_detections` and `cached_history` are `lru_cache`-decorated
functions; their memo tables live in the state, and `clear_caches` empties
both. `socketio.emit('detection', rec)` is modelled by appending the
emitted dict to an `emitted` log. -/

/-- A persisted row of the `detections` table. -/
structure DetRow where
  id : ℕ
  ts : String
  obj_type : String
  distance : PyFloat
deriving DecidableEq, Repr

/-- A row as returned by the history SELECT: `(ts, obj_type, distance)`. -/
abbrev HistRow := String × String × PyFloat

/-- `lru_cache(maxsize=32)`. -/
def LRU_MAXSIZE : ℕ := 32

/-- Insert into an LRU memo table keyed by the argument: most recent first,
capacity `LRU_MAXSIZE`. -/
def lruInsert (cache : List (ℕ × List HistRow)) (k : ℕ) (v : List HistRow) :
    List (ℕ × List HistRow) :=
  ((k, v) :: cache.filter (fun e => e.1 ≠ k)).take LRU_MAXSIZE

/-- Mark a key as most recently used after a cache hit. -/
def lruTouch (cache : List (ℕ × List HistRow)) (k : ℕ) :
    List (ℕ × List HistRow) :=
  match cache.lookup k with
  | some v => (k, v) :: cache.filter (fun e => e.1 ≠ k)
  | none => cache

/-- Whole-process state of the sequential model. -/
structure SysState where
  db : List DetRow
  nextId : ℕ
  cacheTotal : Option ℕ
  cacheHist : List (ℕ × List HistRow)
  settings : Settings
  emitted : List Dict
deriving DecidableEq, Repr

/-- The fresh process state: empty table, id counter at 1, cold caches,
initial settings, nothing emitted. -/
def initial_state : SysState :=
  { db := [], nextId := 1, cacheTotal := none, cacheHist := [],
    settings := initial_settings, emitted := [] }

/-- `SELECT COUNT(*) FROM detections`. -/
def totalQuery (db : List DetRow) : ℕ := db.length

/-- `SELECT ts, obj_type, distance FROM detections ORDER BY id DESC LIMIT ?`:
the table is kept in ascending-id insertion order, so descending id order is
its reverse. -/
def historyQuery (db : List DetRow) (limit : ℕ) : List HistRow :=
  (db.reverse.take limit).map (fun r => (r.ts, r.obj_type, r.distance))

/-- `cached_total_detections()`: return the memoized count if present, else
run the COUNT query and memoize it. -/
def cached_total_detections (st : SysState) : ℕ × SysState :=
  match st.cacheTotal with
  | some n => (n, st)
  | none =>
    let n := totalQuery st.db
    (n, { st with cacheTotal := some n })

/-- `cached_history(limit)`: return the memoized rows for this limit if
present, else run the SELECT and memoize. -/
def cached_history (limit : ℕ) (st : SysState) : List HistRow × SysState :=
  match st.cacheHist.lookup limit with
  | some rows => (rows, { st with cacheHist := lruTouch st.cacheHist limit })
  | none =>
    let rows := historyQuery st.db limit
    (rows, { st with cacheHist := lruInsert st.cacheHist limit rows })

/-- `clear_caches()`: `cache_clear` on both memoized functions. -/
def clear_caches (st : SysState) : SysState :=
  { st with cacheTotal := none, cacheHist := [] }

/-- `record_detection(obj_type, distance)`: stamp `ts = utcnow` (the caller
passes the clock reading `now`), INSERT the row (SQLite assigns id
`nextId`), commit, clear both caches, and return the dict
`{"ts": ts, "obj_type": obj_type, "distance": distance}` — note: no id. -/
def record_detection (now obj_type : String) (distance : PyFloat)
    (st : SysState) : Dict × SysState :=
  let row : DetRow := { id := st.nextId, ts := now, obj_type := obj_type, distance := distance }
  let st1 := { st with db := st.db ++ [row], nextId := st.nextId + 1 }
  let st2 := clear_caches st1
  ([("ts", PyVal.vStr now), ("obj_type", PyVal.vStr obj_type),
    ("distance", PyVal.vNum distance)], st2)

/-- UTF-8 encoding of one character (Python `str.encode('utf-8')`). -/
def utf8Bytes (c : Char) : List ℕ :=
  let n := c.toNat
  if n < 0x80 then [n]
  else if n < 0x800 then [0xC0 + n / 64, 0x80 + n % 64]
  else if n < 0x10000 then [0xE0 + n / 4096, 0x80 + n / 64 % 64, 0x80 + n % 64]
  else [0xF0 + n / 262144, 0x80 + n / 4096 % 64, 0x80 + n / 64 % 64, 0x80 + n % 64]

/-- Python `round(x, 2)` for the values arising here: all inputs already
have at most two decimals (denominator dividing 20), so rounding to two
places is exact. -/
def round2 (q : ℚ) : ℚ := (round (q * 100) : ℚ) / 100

/-- `h = sum(bytearray(path.encode('utf-8'))) % 100`. -/
def pathHash (path : String) : ℕ :=
  ((path.data.map utf8Bytes).flatten).sum % 100

/-- The simulated distance for hash `h`: `round(0.5 + (h/100)*5.0, 2)`. -/
def simDistance (h : ℕ) : ℚ :=
  round2 (1 / 2 + (h : ℚ) / 100 * 5)

/-- `simulate_detection_from_file(path)`: `h` is the UTF-8 byte sum of the
path mod 100; even `h` gives a pedestrian, odd a vehicle; the distance is
`round(0.5 + (h/100)*5.0, 2)`. -/
def simulate_detection_from_file (path : String) : String × ℚ :=
  let h := pathHash path
  let obj := if h % 2 = 0 then "pedestrian" else "vehicle"
  (obj, simDistance h)

/-- The simulated distance for a path. -/
def photoDist (path : String) : ℚ := (simulate_detection_from_file path).2

/-- `/upload_photo` after the file is saved: simulate a detection, record
it, and emit it over the socket iff `alerts_enabled` and the recorded
distance is at most the threshold. Returns (emitted?, returned dict,
new state). -/
def upload_photo (path now : String) (st : SysState) : Bool × Dict × SysState :=
  let sim := simulate_detection_from_file path
  let rd := record_detection now sim.1 (PyFloat.finite sim.2) st
  let st1 := rd.2
  if st1.settings.alerts_enabled && PyFloat.le (PyFloat.finite sim.2) st1.settings.threshold then
    (true, rd.1, { st1 with emitted := st1.emitted ++ [rd.1] })
  else
    (false, rd.1, st1)

/-- One iteration `i` of `simulate_video_processing(path)`: derive a
detection from `path + str(i)`, record it, and emit iff `alerts_enabled`
and the recorded distance is at most the threshold. The trailing
`time.sleep(2)` is a no-op in the sequential model. -/
def video_iter (path : String) (i : ℕ) (now : String) (st : SysState) :
    Bool × SysState :=
  let det := simulate_detection_from_file (path ++ toString i)
  let rd := record_detection now det.1 (PyFloat.finite det.2) st
  let st1 := rd.2
  if st1.settings.alerts_enabled && PyFloat.le (PyFloat.finite det.2) st1.settings.threshold then
    (true, { st1 with emitted := st1.emitted ++ [rd.1] })
  else
    (false, st1)

/-- `simulate_video_processing(path)`: four paced iterations; `clock i` is
the UTC timestamp at iteration `i`. -/
def simulate_video_processing (path : String) (clock : ℕ → String)
    (st : SysState) : SysState :=
  (List.range 4).foldl (fun s i => (video_iter path i (clock i) s).2) st

/-- `/stats`: cached total plus the current settings fields. -/
def stats (st : SysState) : (ℕ × PyFloat × Bool) × SysState :=
  let ct := cached_total_detections st
  ((ct.1, st.settings.threshold, st.settings.alerts_enabled), ct.2)

/-- `/history`: `cached_history(50)` serialized. -/
def history (st : SysState) : List HistRow × SysState :=
  cached_history 50 st

/-- Fold a list of (now, obj_type, distance) appends through
`record_detection`, keeping only the state. -/
def appendSeq (l : List (String × String × PyFloat)) (st : SysState) : SysState :=
  l.foldl (fun s e => (record_detection e.1 e.2.1 e.2.2 s).2) st

/-- The count memo, when warm, agrees with the table. -/
def CacheTotalOK (st : SysState) : Prop :=
  ∀ n, st.cacheTotal = some n → n = st.db.length

/-- The history memo, when warm, agrees with the table for each limit. -/
def CacheHistOK (st : SysState) : Prop :=
  ∀ k rows, st.cacheHist.lookup k = some rows → rows = historyQuery st.db k

/-- Table ids are strictly increasing in insertion order. -/
def IdsAsc (db : List DetRow) : Prop :=
  db.Chain' (fun a b => a.id < b.id)

/-- Every stored id is below the AUTOINCREMENT counter. -/
def IdBound (st : SysState) : Prop :=
  ∀ r ∈ st.db, r.id < st.nextId

/-! ### Task queue worker model

A queued job mutates the process state and either returns normally or
raises with a message; Python's exception semantics keep the side effects
performed before the raise. The worker body wraps the call in
`try/except Exception`, printing the error, then loops. -/

/-- A queued task: final state plus `some message` when it raised. -/
abbrev Job := SysState → SysState × Option String

/-- One worker loop body: `func(*args)` under `try/except Exception`; a
raise is caught and appended to the log (the `print`). -/
def run_task (j : Job) (st : SysState) (log : List String) :
    SysState × List String :=
  match j st with
  | (st1, some e) => (st1, log ++ [e])
  | (st1, none) => (st1, log)

/-- The worker draining a queue: it never terminates on a job failure, so
it processes every queued job in order. -/
def worker_run : List Job → SysState → List String → SysState × List String
  | [], st, log => (st, log)
  | j :: rest, st, log =>
    let p := run_task j st log
    worker_run rest p.1 p.2

/-- A queued job that raises immediately (for exercising the worker). -/
def job_fail : Job := fun s => (s, some "boom")

/-- A queued job that records one detection and returns normally. -/
def job_ok : Job := fun s =>
  ((record_detection "t1" "vehicle" (PyFloat.finite 1) s).2, none)

instance (ps : PoolState) : Decidable (PoolWF ps) := by
  unfold PoolWF; infer_instance

instance (st : SysState) : Decidable (IdBound st) := by
  unfold IdBound; infer_instance

/-! ## Helper lemmas -/

/-- The simulated distance in closed form: `(h + 10) / 20` metres. -/
theorem simDistance_eq (h : ℕ) : simDistance h = ((h : ℚ) + 10) / 20 := by
  unfold simDistance round2
  have h1 : (1 / 2 + (h : ℚ) / 100 * 5) * 100 = ((50 + 5 * h : ℕ) : ℚ) := by
    push_cast
    ring
  rw [h1, round_natCast]
  push_cast
  field_simp
  ring

/-- Python `<=` agrees with the rational order on finite values. -/
theorem pyLe_finite (a b : ℚ) :
    PyFloat.le (PyFloat.finite a) (PyFloat.finite b) = decide (a ≤ b) := rfl

/-- Releasing a handle always leaves it in the pool or closed. -/
theorem released_release_db_conn (c : ℕ) (ps : PoolState) :
    released c (release_db_conn c ps) := by
  unfold released release_db_conn
  by_cases h : ps.pool.length < DB_POOL_MAX <;> simp [h]

/-- A freshly acquired handle is outside the remaining pool and the closed
list, for a well-formed pool. -/
theorem get_db_conn_not_released (ps : PoolState) (wf : PoolWF ps) :
    ¬ released (get_db_conn ps).1 (get_db_conn ps).2 := by
  obtain ⟨hnp, _, hp, hc⟩ := wf
  unfold get_db_conn released
  cases hpool : ps.pool with
  | nil =>
    simp only []
    rintro (h | h)
    · simp [hpool] at h
    · exact absurd (hc _ h) (by omega)
  | cons p rest =>
    simp only []
    rintro (h | h)
    · rw [hpool] at hnp
      exact (List.nodup_cons.mp hnp).1 h
    · exact (hp p (by rw [hpool]; exact List.mem_cons_self p rest)).1 h

/-- A warm count memo matches the table on a coherent state. -/
theorem cached_total_fst (st : SysState) (h : CacheTotalOK st) :
    (cached_total_detections st).1 = st.db.length := by
  unfold cached_total_detections
  cases hm : st.cacheTotal with
  | none => simp [totalQuery]
  | some n => simpa using h n hm

/-- Appending `l` grows the table by `l.length` rows. -/
theorem appendSeq_db_length (l : List (String × String × PyFloat)) (st : SysState) :
    (appendSeq l st).db.length = st.db.length + l.length := by
  induction l generalizing st with
  | nil => simp [appendSeq]
  | cons e rest ih =>
    show (appendSeq rest (record_detection e.1 e.2.1 e.2.2 st).2).db.length = _
    rw [ih]
    simp [record_detection, clear_caches]
    omega

/-- Appending preserves count-memo coherence (it empties the memo). -/
theorem appendSeq_cacheTotalOK (l : List (String × String × PyFloat)) (st : SysState)
    (h : CacheTotalOK st) : CacheTotalOK (appendSeq l st) := by
  induction l generalizing st with
  | nil => exact h
  | cons e rest ih =>
    show CacheTotalOK (appendSeq rest (record_detection e.1 e.2.1 e.2.2 st).2)
    exact ih _ (by intro n hn; simp [record_detection, clear_caches] at hn)

/-- Taking from a reverse is the reverse of the last elements. -/
theorem reverse_take_eq_drop_reverse {α : Type} (l : List α) (k : ℕ) :
    l.reverse.take k = (l.drop (l.length - k)).reverse := by
  have h := List.rtake_eq_reverse_take_reverse (l := l) (n := k)
  rw [List.rtake] at h
  rw [h, List.reverse_reverse]

/-! ## Claim theorems -/

/-- C10: `toggle_alert` never rejects: for every request body it returns ok
and stores the Python truthiness coercion of the `enabled` field — in
particular a body with the field absent, or with it `null`, stores `false` —
and the threshold field is untouched. -/
theorem toggle_alert_total (body : Option Dict) (s : Settings) :
    (toggle_alert body s).1 = true ∧
    (toggle_alert body s).2.alerts_enabled = pyTruthy (dictGet (body.getD []) "enabled") ∧
    (toggle_alert body s).2.threshold = s.threshold ∧
    (toggle_alert (some []) s).2.alerts_enabled = false ∧
    (toggle_alert none s).2.alerts_enabled = false ∧
    (toggle_alert (some [("enabled", PyVal.vNone)]) s).2.alerts_enabled = false :=
  ⟨rfl, rfl, rfl, rfl, rfl, rfl⟩

/-- C9 counterexample: `set_threshold` with the finite value `-1` succeeds
and stores a negative threshold, so a reachable state violates
`threshold ≥ 0`. -/
theorem set_threshold_accepts_negative :
    set_threshold (some [("threshold", PyVal.vNum (PyFloat.finite (-1)))]) initial_settings
      = (true, { initial_settings with threshold := PyFloat.finite (-1) }) ∧
    (-1 : ℚ) < 0 :=
  ⟨rfl, by norm_num⟩

/-- C9 amended: the threshold starts non-negative (2.0), but
`set_threshold` performs no sign check — every successfully converted
finite value, negative ones included, is stored verbatim, so negative
thresholds are reachable. -/
theorem threshold_nonneg_start_not_preserved :
    initial_settings.threshold = PyFloat.finite 2 ∧ (0 : ℚ) ≤ 2 ∧
    (∀ (q : ℚ) (s : Settings),
      (set_threshold (some [("threshold", PyVal.vNum (PyFloat.finite q))]) s).2.threshold
        = PyFloat.finite q) :=
  ⟨rfl, by norm_num, fun q s => rfl⟩

/-- C2 counterexample: `set_threshold(NaN)` succeeds and stores the
non-finite value NaN, instead of rejecting with a validation error. -/
theorem set_threshold_nan_accepted :
    set_threshold (some [("threshold", PyVal.vNum PyFloat.nan)]) initial_settings
      = (true, { initial_settings with threshold := PyFloat.nan }) ∧
    PyFloat.nan.isFinite = false :=
  ⟨rfl, rfl⟩

/-- C2 amended: `set_threshold` succeeds exactly when Python `float()`
conversion of the supplied value succeeds, storing the converted value —
non-finite values such as NaN and ±∞ included; only values `float()`
rejects (e.g. the string "abc", or a missing field) produce a validation
error and leave the settings unchanged. -/
theorem set_threshold_accepts_iff_float_ok (body : Option Dict) (s : Settings) :
    ((set_threshold body s).1 = true ↔
      (pyFloat (dictGet (body.getD []) "threshold")).isSome = true) ∧
    (∀ t, pyFloat (dictGet (body.getD []) "threshold") = some t →
      set_threshold body s = (true, { s with threshold := t })) ∧
    (pyFloat (dictGet (body.getD []) "threshold") = none →
      set_threshold body s = (false, s)) ∧
    pyFloat (PyVal.vStr "abc") = none ∧
    pyFloat (PyVal.vNum PyFloat.nan) = some PyFloat.nan ∧
    pyFloat (PyVal.vNum PyFloat.inf) = some PyFloat.inf := by
  refine ⟨?_, ?_, ?_, by decide, rfl, rfl⟩ <;>
    unfold set_threshold <;>
    cases h : pyFloat (dictGet (body.getD []) "threshold") <;> simp [h]

/-- C2 amended, witness: `set_threshold("abc")` is rejected with the
settings unchanged. -/
theorem set_threshold_accepts_iff_float_ok_witness :
    set_threshold (some [("threshold", PyVal.vStr "abc")]) initial_settings
      = (false, initial_settings) :=
  (set_threshold_accepts_iff_float_ok
    (some [("threshold", PyVal.vStr "abc")]) initial_settings).2.2.1 (by decide)

/-- C3 counterexample: with one handle available in the pool, a raising
INSERT inside `record_detection` exits with the acquired handle neither
back in the pool nor closed — there is no `try`/`finally` around the
release, so the exception path leaks the handle. -/
theorem record_detection_conn_leak :
    record_detection_conn true { pool := [1], closed := [], nextConn := 2 }
      = Except.error (1, { pool := [], closed := [], nextConn := 2 }) ∧
    ¬ released 1 { pool := [], closed := [], nextConn := 2 } :=
  ⟨rfl, by decide⟩

/-- C3 amended: every Event Store operation releases its acquired pool
handle (back to the pool, or closed) on the normal completion path, but on
the path where the storage operation raises, the handle is not released:
it is left outside both the pool and the closed set. -/
theorem conn_release_on_success_only (ps : PoolState) :
    (∀ c ps1, record_detection_conn false ps = Except.ok (c, ps1) → released c ps1) ∧
    (∀ c ps1, cached_total_detections_conn false ps = Except.ok (c, ps1) → released c ps1) ∧
    (∀ c ps1, cached_history_conn false ps = Except.ok (c, ps1) → released c ps1) ∧
    (PoolWF ps → ∀ c ps1,
      record_detection_conn true ps = Except.error (c, ps1) → ¬ released c ps1) ∧
    (PoolWF ps → ∀ c ps1,
      cached_total_detections_conn true ps = Except.error (c, ps1) → ¬ released c ps1) ∧
    (PoolWF ps → ∀ c ps1,
      cached_history_conn true ps = Except.error (c, ps1) → ¬ released c ps1) := by
  refine ⟨?_, ?_, ?_, ?_, ?_, ?_⟩
  · intro c ps1 h
    simp only [record_detection_conn, Bool.false_eq_true, if_false,
      Except.ok.injEq, Prod.mk.injEq] at h
    obtain ⟨h1, h2⟩ := h
    subst h1; subst h2
    exact released_release_db_conn _ _
  · intro c ps1 h
    simp only [cached_total_detections_conn, Bool.false_eq_true, if_false,
      Except.ok.injEq, Prod.mk.injEq] at h
    obtain ⟨h1, h2⟩ := h
    subst h1; subst h2
    exact released_release_db_conn _ _
  · intro c ps1 h
    simp only [cached_history_conn, Bool.false_eq_true, if_false,
      Except.ok.injEq, Prod.mk.injEq] at h
    obtain ⟨h1, h2⟩ := h
    subst h1; subst h2
    exact released_release_db_conn _ _
  · intro wf c ps1 h
    simp only [record_detection_conn, if_true, Except.error.injEq, Prod.mk.injEq] at h
    obtain ⟨h1, h2⟩ := h
    subst h1; subst h2
    exact get_db_conn_not_released ps wf
  · intro wf c ps1 h
    simp only [cached_total_detections_conn, if_true, Except.error.injEq, Prod.mk.injEq] at h
    obtain ⟨h1, h2⟩ := h
    subst h1; subst h2
    exact get_db_conn_not_released ps wf
  · intro wf c ps1 h
    simp only [cached_history_conn, if_true, Except.error.injEq, Prod.mk.injEq] at h
    obtain ⟨h1, h2⟩ := h
    subst h1; subst h2
    exact get_db_conn_not_released ps wf

/-- C3 amended, witness: on a one-handle pool, a successful
`record_detection` puts handle 1 back in the pool, and a raising
`cached_total_detections` compute on an empty well-formed pool leaves its
fresh handle unreleased. -/
theorem conn_release_on_success_only_witness :
    released 1 { pool := [1], closed := [], nextConn := 2 } ∧
    ¬ released 2 { pool := [], closed := [], nextConn := 3 } :=
  ⟨(conn_release_on_success_only { pool := [1], closed := [], nextConn := 2 }).1
      1 { pool := [1], closed := [], nextConn := 2 } rfl,
   (conn_release_on_success_only { pool := [], closed := [], nextConn := 2 }).2.2.2.2.1
      (by decide) 2 { pool := [], closed := [], nextConn := 3 } rfl⟩

/-- The photo handler publishes exactly when the alert policy holds. -/
theorem upload_photo_fst (st : SysState) (path now : String) :
    (upload_photo path now st).1
      = (st.settings.alerts_enabled
          && PyFloat.le (PyFloat.finite (photoDist path)) st.settings.threshold) := by
  cases hc : st.settings.alerts_enabled
      && PyFloat.le (PyFloat.finite ((simulate_detection_from_file path).2))
          st.settings.threshold with
  | true => simp [upload_photo, record_detection, clear_caches, photoDist, hc]
  | false => simp [upload_photo, record_detection, clear_caches, photoDist, hc]

/-- A video-job iteration publishes exactly when the alert policy holds. -/
theorem video_iter_fst (st : SysState) (path now : String) (i : ℕ) :
    (video_iter path i now st).1
      = (st.settings.alerts_enabled
          && PyFloat.le (PyFloat.finite (photoDist (path ++ toString i)))
              st.settings.threshold) := by
  cases hc : st.settings.alerts_enabled
      && PyFloat.le (PyFloat.finite ((simulate_detection_from_file (path ++ toString i)).2))
          st.settings.threshold with
  | true => simp [video_iter, record_detection, clear_caches, photoDist, hc]
  | false => simp [video_iter, record_detection, clear_caches, photoDist, hc]

/-- The photo handler grows the socket log exactly when it publishes. -/
theorem upload_photo_emitted (st : SysState) (path now : String) :
    (upload_photo path now st).2.2.emitted.length
      = st.emitted.length + (if (upload_photo path now st).1 = true then 1 else 0) := by
  cases hc : st.settings.alerts_enabled
      && PyFloat.le (PyFloat.finite ((simulate_detection_from_file path).2))
          st.settings.threshold with
  | true => simp [upload_photo, record_detection, clear_caches, photoDist, hc]
  | false => simp [upload_photo, record_detection, clear_caches, photoDist, hc]

/-- A video-job iteration grows the socket log exactly when it publishes. -/
theorem video_iter_emitted (st : SysState) (path now : String) (i : ℕ) :
    (video_iter path i now st).2.emitted.length
      = st.emitted.length + (if (video_iter path i now st).1 = true then 1 else 0) := by
  cases hc : st.settings.alerts_enabled
      && PyFloat.le (PyFloat.finite ((simulate_detection_from_file (path ++ toString i)).2))
          st.settings.threshold with
  | true => simp [video_iter, record_detection, clear_caches, photoDist, hc]
  | false => simp [video_iter, record_detection, clear_caches, photoDist, hc]

/-- C1: a detection is published iff `alerts_enabled` is true and its
distance is at most the current threshold (the boundary case
distance = threshold publishes), at both recording sites — the photo
upload handler and each iteration of a video job; with alerts disabled
nothing is ever published regardless of distance; and a publication
appends exactly one event to the socket log. -/
theorem alert_publish_iff (st : SysState) (path vpath now : String) (i : ℕ) :
    ((upload_photo path now st).1 = true ↔
      (st.settings.alerts_enabled = true ∧
        PyFloat.le (PyFloat.finite (photoDist path)) st.settings.threshold = true)) ∧
    ((video_iter vpath i now st).1 = true ↔
      (st.settings.alerts_enabled = true ∧
        PyFloat.le (PyFloat.finite (photoDist (vpath ++ toString i)))
          st.settings.threshold = true)) ∧
    (∀ tq : ℚ, st.settings.threshold = PyFloat.finite tq →
      (((upload_photo path now st).1 = true) ↔
        (st.settings.alerts_enabled = true ∧ photoDist path ≤ tq)) ∧
      (((video_iter vpath i now st).1 = true) ↔
        (st.settings.alerts_enabled = true ∧ photoDist (vpath ++ toString i) ≤ tq))) ∧
    (st.settings.alerts_enabled = false →
      (upload_photo path now st).1 = false ∧ (video_iter vpath i now st).1 = false) ∧
    ((upload_photo path now st).2.2.emitted.length
        = st.emitted.length + (if (upload_photo path now st).1 = true then 1 else 0)) ∧
    ((video_iter vpath i now st).2.emitted.length
        = st.emitted.length + (if (video_iter vpath i now st).1 = true then 1 else 0)) := by
  refine ⟨?_, ?_, ?_, ?_, upload_photo_emitted st path now, video_iter_emitted st vpath now i⟩
  · rw [upload_photo_fst]
    simp [Bool.and_eq_true]
  · rw [video_iter_fst]
    simp [Bool.and_eq_true]
  · intro tq htq
    constructor
    · rw [upload_photo_fst, htq, pyLe_finite]
      simp [Bool.and_eq_true]
    · rw [video_iter_fst, htq, pyLe_finite]
      simp [Bool.and_eq_true]
  · intro hoff
    rw [upload_photo_fst, video_iter_fst, hoff]
    simp

/-- C1 witness: on the initial settings (threshold 2.0, alerts on), the
photo "a" (simulated distance 5.35) does not publish; with threshold 10
the first video iteration of "v" (simulated distance 3.8) publishes. -/
theorem alert_publish_iff_witness :
    (upload_photo "a" "t0" initial_state).1 = false ∧
    (video_iter "v" 0 "t0"
      { initial_state with
        settings := { threshold := PyFloat.finite 10, alerts_enabled := true } }).1 = true := by
  constructor
  · have h := ((alert_publish_iff initial_state "a" "v" "t0" 0).2.2.1 2 rfl).1
    have hd : photoDist "a" = 107 / 20 := by
      have hh : pathHash "a" = 97 := by decide
      simp only [photoDist, simulate_detection_from_file, hh, simDistance_eq]
      norm_num
    cases hb : (upload_photo "a" "t0" initial_state).1 with
    | false => rfl
    | true =>
      have hcontra := h.mp hb
      rw [hd] at hcontra
      exact absurd hcontra.2 (by norm_num)
  · have h := ((alert_publish_iff
      { initial_state with
        settings := { threshold := PyFloat.finite 10, alerts_enabled := true } }
      "a" "v" "t0" 0).2.2.1 10 rfl).2
    apply h.mpr
    refine ⟨rfl, ?_⟩
    have hh : pathHash ("v" ++ toString 0) = 66 := by decide
    simp only [photoDist, simulate_detection_from_file, hh, simDistance_eq]
    norm_num

/-- C4: `record_detection` empties both caches before returning, so the
next aggregate read recomputes from the table: whatever the caches held
before the append, the count read afterwards returns the new table size
(one more than before) and the history read returns the new record
first. -/
theorem append_invalidates_cache (st : SysState) (now obj : String)
    (d : PyFloat) (k : ℕ) (hk : 1 ≤ k) :
    (cached_total_detections ((record_detection now obj d st).2)).1 = st.db.length + 1 ∧
    ((cached_history k ((record_detection now obj d st).2)).1).head?
      = some (now, obj, d) ∧
    ((cached_history k ((record_detection now obj d st).2)).1).length ≤ k := by
  obtain ⟨k1, rfl⟩ : ∃ k1, k = k1 + 1 := ⟨k - 1, by omega⟩
  refine ⟨?_, ?_, ?_⟩
  · simp [cached_total_detections, record_detection, clear_caches, totalQuery]
  · simp [cached_history, record_detection, clear_caches, historyQuery]
  · simp only [cached_history, record_detection, clear_caches, historyQuery,
      List.lookup_nil, List.length_map, List.length_take]
    omega

/-- C4 witness: appending to the fresh state makes the next count read 1
and puts the new record at the head of the history read. -/
theorem append_invalidates_cache_witness :
    (cached_total_detections
        ((record_detection "t0" "pedestrian" (PyFloat.finite 1) initial_state).2)).1
      = initial_state.db.length + 1 ∧
    ((cached_history 1
        ((record_detection "t0" "pedestrian" (PyFloat.finite 1) initial_state).2)).1).head?
      = some ("t0", "pedestrian", PyFloat.finite 1) ∧
    ((cached_history 1
        ((record_detection "t0" "pedestrian" (PyFloat.finite 1) initial_state).2)).1).length
      ≤ 1 :=
  append_invalidates_cache initial_state "t0" "pedestrian" (PyFloat.finite 1) 1 (by decide)

/-- C5 counterexample: the store assigns id 1 to the persisted row, but the
dict returned by `record_detection` has no `id` key at all — the returned
value does not carry the assigned id. -/
theorem record_detection_return_lacks_id :
    ((record_detection "2025-01-01T00:00:00" "pedestrian" (PyFloat.finite 1)
        initial_state).1).lookup "id" = none ∧
    ((record_detection "2025-01-01T00:00:00" "pedestrian" (PyFloat.finite 1)
        initial_state).2).db
      = [{ id := 1, ts := "2025-01-01T00:00:00", obj_type := "pedestrian",
           distance := PyFloat.finite 1 }] :=
  ⟨rfl, rfl⟩

/-- C5 amended: `record_detection` persists a row carrying a store-assigned
strictly increasing id and the supplied UTC timestamp, and returns a dict
carrying the persisted timestamp, object class and distance — but not the
assigned id. -/
theorem record_detection_persists_and_returns (st : SysState) (now obj : String)
    (d : PyFloat) :
    ((record_detection now obj d st).2).db
      = st.db ++ [{ id := st.nextId, ts := now, obj_type := obj, distance := d }] ∧
    ((record_detection now obj d st).2).nextId = st.nextId + 1 ∧
    ((record_detection now obj d st).1).lookup "ts" = some (PyVal.vStr now) ∧
    ((record_detection now obj d st).1).lookup "obj_type" = some (PyVal.vStr obj) ∧
    ((record_detection now obj d st).1).lookup "distance" = some (PyVal.vNum d) ∧
    ((record_detection now obj d st).1).lookup "id" = none ∧
    (IdBound st → IdBound (record_detection now obj d st).2) ∧
    (IdBound st → IdsAsc st.db → IdsAsc ((record_detection now obj d st).2).db) := by
  refine ⟨rfl, rfl, rfl, rfl, rfl, rfl, ?_, ?_⟩
  · intro hb r hr
    simp only [record_detection, clear_caches, List.mem_append,
      List.mem_singleton] at hr
    show r.id < st.nextId + 1
    rcases hr with hr | hr
    · exact Nat.lt_succ_of_lt (hb r hr)
    · rw [hr]
      exact Nat.lt_succ_self st.nextId
  · intro hb ha
    show List.Chain' _ (st.db ++ [_])
    rw [List.chain'_append]
    refine ⟨ha, List.chain'_singleton _, ?_⟩
    intro x hx y hy
    obtain ⟨hne, rfl⟩ := List.mem_getLast?_eq_getLast hx
    simp only [List.head?_cons, Option.mem_def, Option.some.injEq] at hy
    rw [← hy]
    exact hb _ (List.getLast_mem hne)

/-- C5 amended, witness: one append to the fresh state. -/
theorem record_detection_persists_and_returns_witness :
    ((record_detection "t0" "vehicle" (PyFloat.finite 3) initial_state).2).db
      = initial_state.db
          ++ [{ id := initial_state.nextId, ts := "t0", obj_type := "vehicle",
                distance := PyFloat.finite 3 }] ∧
    IdsAsc ((record_detection "t0" "vehicle" (PyFloat.finite 3) initial_state).2).db :=
  ⟨(record_detection_persists_and_returns initial_state "t0" "vehicle"
      (PyFloat.finite 3)).1,
   (record_detection_persists_and_returns initial_state "t0" "vehicle"
      (PyFloat.finite 3)).2.2.2.2.2.2.2 (by decide) (List.chain'_nil)⟩

/-- C6: a sequence of N successful appends, with no interleaved writers,
raises the count read by exactly N over the count read before the
sequence (on a state whose count memo is coherent). -/
theorem count_after_appends (l : List (String × String × PyFloat)) (st : SysState)
    (h : CacheTotalOK st) :
    (cached_total_detections (appendSeq l st)).1
      = (cached_total_detections st).1 + l.length := by
  rw [cached_total_fst st h, cached_total_fst _ (appendSeq_cacheTotalOK l st h),
    appendSeq_db_length]

/-- C6 witness: two appends to the fresh state give count 2. -/
theorem count_after_appends_witness :
    (cached_total_detections
        (appendSeq [("t0", "pedestrian", PyFloat.finite 1),
                    ("t1", "vehicle", PyFloat.finite 2)] initial_state)).1
      = (cached_total_detections initial_state).1 + 2 :=
  count_after_appends [("t0", "pedestrian", PyFloat.finite 1),
    ("t1", "vehicle", PyFloat.finite 2)] initial_state
    (by intro n hn; simp [initial_state] at hn)

/-- C7: a history read of limit k returns at most k rows, namely the k most
recent rows of the table in reverse insertion order; since table ids
strictly increase in insertion order, the selected rows carry strictly
decreasing ids (most recent first). -/
theorem history_reads_recent_desc (st : SysState) (k : ℕ)
    (hc : CacheHistOK st) (ha : IdsAsc st.db) :
    ((cached_history k st).1).length ≤ k ∧
    (cached_history k st).1
      = ((st.db.drop (st.db.length - k)).map
          (fun r => (r.ts, r.obj_type, r.distance))).reverse ∧
    List.Chain' (fun a b => b.id < a.id) (st.db.reverse.take k) := by
  have hrows : (cached_history k st).1 = historyQuery st.db k := by
    unfold cached_history
    cases hm : st.cacheHist.lookup k with
    | none => simp
    | some rows => simpa using hc k rows hm
  refine ⟨?_, ?_, ?_⟩
  · rw [hrows]
    unfold historyQuery
    simp only [List.length_map, List.length_take]
    omega
  · rw [hrows]
    unfold historyQuery
    rw [reverse_take_eq_drop_reverse, List.map_reverse]
  · exact (List.chain'_reverse.mpr ha).take k

/-- C7 witness: a two-row table with ids 1, 2 read at limit 1. -/
theorem history_reads_recent_desc_witness :
    ((cached_history 1
        { initial_state with
          db := [{ id := 1, ts := "t0", obj_type := "pedestrian",
                   distance := PyFloat.finite 1 },
                 { id := 2, ts := "t1", obj_type := "vehicle",
                   distance := PyFloat.finite 3 }],
          nextId := 3 }).1).length ≤ 1 ∧
    List.Chain' (fun a b => b.id < a.id)
      (({ initial_state with
          db := [{ id := 1, ts := "t0", obj_type := "pedestrian",
                   distance := PyFloat.finite 1 },
                 { id := 2, ts := "t1", obj_type := "vehicle",
                   distance := PyFloat.finite 3 }],
          nextId := 3 } : SysState).db.reverse.take 1) :=
  ⟨(history_reads_recent_desc _ 1 (by intro a b hab; simp [initial_state] at hab)
      (by simp [IdsAsc])).1,
   (history_reads_recent_desc _ 1 (by intro a b hab; simp [initial_state] at hab)
      (by simp [IdsAsc])).2.2⟩

/-- C8: a raising job is caught and logged by the worker, which proceeds to
the rest of the queue in the same loop; and draining a queue splits at any
point — every job queued after a failure still runs to completion. -/
theorem worker_failure_isolated (j : Job) (rest : List Job)
    (st st1 : SysState) (e : String) (log : List String)
    (hfail : j st = (st1, some e)) :
    worker_run (j :: rest) st log = worker_run rest st1 (log ++ [e]) ∧
    (∀ (q1 q2 : List Job) (st0 : SysState) (log0 : List String),
      worker_run (q1 ++ q2) st0 log0
        = worker_run q2 (worker_run q1 st0 log0).1 (worker_run q1 st0 log0).2) := by
  constructor
  · show worker_run rest (run_task j st log).1 (run_task j st log).2 = _
    rw [run_task, hfail]
  · intro q1 q2 st0 log0
    induction q1 generalizing st0 log0 with
    | nil => rfl
    | cons a as ih =>
      show worker_run (as ++ q2) (run_task a st0 log0).1 (run_task a st0 log0).2 = _
      rw [ih]
      rfl

/-- C8 witness: a queue holding a raising job then a normal job: the
worker logs "boom" and still executes the second job. -/
theorem worker_failure_isolated_witness :
    worker_run [job_fail, job_ok] initial_state []
      = worker_run [job_ok] initial_state ([] ++ ["boom"]) ∧
    worker_run ([job_fail] ++ [job_ok]) initial_state []
      = worker_run [job_ok] (worker_run [job_fail] initial_state []).1
          (worker_run [job_fail] initial_state []).2 := by
  have h := worker_failure_isolated job_fail [job_ok] initial_state initial_state
    "boom" [] rfl
  exact ⟨h.1, h.2 [job_fail] [job_ok] initial_state []⟩

end App1
